import Mathlib

-- Shallow embedding of the client-side orchestration core of the
-- ResearchLens application.  The repository holds two page variants:
--   * src/app/page.tsx        : the five-stage flow (idle, uploading,
--     conversation, analyzing, complete); modelled at top level below.
--   * src/unnamed/part_000    : an alternate page with a finer-grained
--     pipeline presentation; modelled inside namespace P0.
-- External collaborators (the upload transport and the remote
-- coordinator) are modelled as explicit outcome values handed to the
-- operations; React state cells become fields of an explicit state
-- record, and each event handler becomes a function from the state plus
-- the outcomes of its awaited calls to the new state, the list of
-- coordinator calls it issued, and the list of successive values it
-- assigned to the processing-stage cell.

/-- Chat roles, from the ChatMessage interface (role: user or assistant). -/
inductive Role where
  | user
  | assistant
deriving DecidableEq, Repr

/-- One conversation turn.  src/app/page.tsx also stores an optional
wall-clock timestamp (new Date()) that is display-only and
nondeterministic; it is omitted from the embedding. -/
structure ChatMessage where
  role : Role
  content : String
deriving DecidableEq, Repr

/-- DocumentInfo interface of src/app/page.tsx (lines 27-32). -/
structure DocumentInfo where
  title : String
  authors : List String
  abstract : String
  year : Option Int
deriving DecidableEq, Repr

/-- methodology sub-object of UnderstandingResult. -/
structure Methodology where
  approach : String
  techniques : List String
  section_citation : String
deriving DecidableEq, Repr

/-- results sub-object of UnderstandingResult. -/
structure ResultsSection where
  key_findings : List String
  section_citation : String
deriving DecidableEq, Repr

/-- limitations sub-object of UnderstandingResult. -/
structure LimitationsSection where
  identified_limitations : List String
  section_citation : String
deriving DecidableEq, Repr

/-- key_claims entries of UnderstandingResult. -/
structure KeyClaim where
  claim : String
  section_citation : String
  confidence : String
deriving DecidableEq, Repr

/-- UnderstandingResult interface of src/app/page.tsx (lines 34-54). -/
structure UnderstandingResult where
  problem_statement : String
  methodology : Methodology
  results : ResultsSection
  limitations : LimitationsSection
  key_claims : List KeyClaim
deriving DecidableEq, Repr

/-- KeyPoint interface (point plus section reference). -/
structure KeyPoint where
  point : String
  section_reference : String
deriving DecidableEq, Repr

/-- Recommendation interface of src/app/page.tsx (lines 61-71).
Numeric scores (JS numbers) are modelled as rationals; no arithmetic is
performed on them by the modelled operations. -/
structure Recommendation where
  rank : Nat
  title : String
  authors : List String
  year : Int
  source : String
  doi_or_arxiv_id : String
  relevance_score : Rat
  relevance_explanation : String
  abstract_snippet : String
deriving DecidableEq, Repr

/-- ProcessingStage union type of src/app/page.tsx (line 73). -/
inductive ProcessingStage where
  | idle
  | uploading
  | conversation
  | analyzing
  | complete
deriving DecidableEq, Repr

/-- Position of a stage in the defined forward progression. -/
def stageIdx : ProcessingStage → Nat
  | .idle => 0
  | .uploading => 1
  | .conversation => 2
  | .analyzing => 3
  | .complete => 4

/-- The component state of the Home component in src/app/page.tsx:
one field per useState cell (refs and the auto-scroll effect are
display-only and omitted). -/
structure HomeState where
  pdfFile : Option String
  doiInput : String
  arxivInput : String
  dragActive : Bool
  uploadedAssetIds : List String
  chatMessages : List ChatMessage
  userInput : String
  isLoading : Bool
  stage : ProcessingStage
  documentInfo : Option DocumentInfo
  understanding : Option UnderstandingResult
  keyTakeaways : List KeyPoint
  recommendations : List Recommendation
  qualityScore : Option Rat
  expandedSections : Finset String
  sidebarOpen : Bool
deriving DecidableEq

/-- Initial values of the useState cells of src/app/page.tsx. -/
def initialState : HomeState where
  pdfFile := none
  doiInput := ""
  arxivInput := ""
  dragActive := false
  uploadedAssetIds := []
  chatMessages := []
  userInput := ""
  isLoading := false
  stage := .idle
  documentInfo := none
  understanding := none
  keyTakeaways := []
  recommendations := []
  qualityScore := none
  expandedSections := {"problem"}
  sidebarOpen := false

/-- Identifier of the Discovery Coordinator agent (AGENTS constant). -/
def DISCOVERY_COORDINATOR : String := "6985a8c9e2c0086a4fc43c18"

/-- summary sub-object of the aggregated payload: the code reads only
summary.key_points (with a default of the empty list when absent). -/
structure SummaryPayload where
  key_points : Option (List KeyPoint)
deriving DecidableEq, Repr

/-- quality_validation sub-object: the code reads its quality_score
member with no default, so that member is itself optional/untrusted and
may be absent even when the parent object is present. -/
structure QualityValidation where
  quality_score : Option Rat
deriving DecidableEq, Repr

/-- The aggregated_results object of a coordinator reply, with each
sub-field optional (absent or null JSON values are none). -/
structure AggregatedResults where
  document_info : Option DocumentInfo
  paper_analysis : Option UnderstandingResult
  summary : Option SummaryPayload
  recommendations : Option (List Recommendation)
  quality_validation : Option QualityValidation
deriving DecidableEq

/-- The structured payload (result.response.result) read by
src/app/page.tsx: a user_message, a next_action hint and the optional
aggregated_results object. -/
structure AgentPayload where
  user_message : Option String
  next_action : Option String
  aggregated_results : Option AggregatedResults
deriving DecidableEq

/-- Outcome of an awaited callAIAgent call: either a thrown transport
exception, or a resolved value exposing success, response.status and
response.result (the payload type varies between the two pages). -/
inductive AgentOutcome (π : Type) where
  | throw
  | result (success : Bool) (status : String) (payload : π)

/-- Outcome of an awaited uploadFiles call: resolved success with
asset_ids, resolved failure with an error string, or a thrown
exception. -/
inductive UploadOutcome where
  | ok (asset_ids : List String)
  | fail (error : String)
  | throw

/-- One coordinator call as issued by src/app/page.tsx:
callAIAgent(message, agentId, with assets). -/
structure CoordinatorCall where
  message : String
  agent : String
  assets : List String
deriving DecidableEq, Repr

/-- JavaScript string defaulting: e || fallback yields the fallback when
e is undefined, null or the empty string. -/
def jsOr (o : Option String) (fallback : String) : String :=
  match o with
  | some s => if s = "" then fallback else s
  | none => fallback

/-- Model of JavaScript String.prototype.trim (and of Lean String.trim,
which is not kernel-reducible): drop whitespace from both ends. -/
def jsTrim (s : String) : String :=
  ⟨((s.data.dropWhile Char.isWhitespace).reverse.dropWhile Char.isWhitespace).reverse⟩

/-- Result of running one event handler: the final component state, the
coordinator calls issued during the run, and the successive values
assigned to the stage cell, in order. -/
structure StepOutput where
  state : HomeState
  calls : List CoordinatorCall
  stageTrace : List ProcessingStage
deriving DecidableEq

/-- toggleSection (identical in src/app/page.tsx lines 139-147 and
src/unnamed/part_000 lines 210-218): copy the expanded-section set and
flip the membership of the given section key. -/
def toggleSection (expanded : Finset String) (sectionKey : String) : Finset String :=
  if sectionKey ∈ expanded then expanded.erase sectionKey
  else insert sectionKey expanded

/-- resetAnalysis of src/app/page.tsx (lines 149-163): clears intake,
conversation, stage, results and the expanded-section set (dragActive
and sidebarOpen are not touched). -/
def resetAnalysis (s : HomeState) : HomeState :=
  { s with
    pdfFile := none
    doiInput := ""
    arxivInput := ""
    uploadedAssetIds := []
    chatMessages := []
    userInput := ""
    stage := .idle
    documentInfo := none
    understanding := none
    keyTakeaways := []
    recommendations := []
    qualityScore := none
    expandedSections := {"problem"} }

/-- The synthesized opening message of src/app/page.tsx line 195; the
template literal tests each reference with JS truthiness, i.e. a
non-empty string. -/
def initialMessage (pf : Option String) (doi arxiv : String) : String :=
  "I\x27ve uploaded a research paper"
    ++ (match pf with
        | some name => " (PDF: " ++ name ++ ")"
        | none => "")
    ++ (if doi ≠ "" then " (DOI: " ++ doi ++ ")" else "")
    ++ (if arxiv ≠ "" then " (arXiv: " ++ arxiv ++ ")" else "")
    ++ ". Please help me analyze it."

/-- The conversation phase of analyzeDocument (src/app/page.tsx lines
192-235): set stage to conversation, replace the log with the synthesized
opening user turn, call the coordinator with the just-acquired asset ids,
then either append the assistant reply (with fallback prompt), append a
fixed failure turn, or, on a thrown exception, replace the log with a
fixed error turn and revert the stage to idle.  The stage trace returned
covers only the assignments made in this phase. -/
def startConversation (s0 : HomeState) (pf : Option String)
    (assetIds : List String) (ao : AgentOutcome AgentPayload) : StepOutput :=
  let msg := initialMessage pf s0.doiInput s0.arxivInput
  let s2 := { s0 with stage := .conversation,
                      chatMessages := [⟨.user, msg⟩] }
  let call : CoordinatorCall := ⟨msg, DISCOVERY_COORDINATOR, assetIds⟩
  match ao with
  | .throw =>
      ⟨{ s2 with chatMessages := [⟨.assistant, "An error occurred during upload. Please try again."⟩],
                 isLoading := false, stage := .idle },
        [call], [.conversation, .idle]⟩
  | .result success status p =>
      if success ∧ status = "success" then
        ⟨{ s2 with chatMessages := s2.chatMessages ++
              [⟨.assistant, jsOr p.user_message "What aspects of the paper would you like me to focus on? (e.g., methodology, limitations, practical applications)"⟩],
                   isLoading := false },
          [call], [.conversation]⟩
      else
        ⟨{ s2 with chatMessages := s2.chatMessages ++
              [⟨.assistant, "I encountered an issue starting the analysis. Please try again."⟩],
                   isLoading := false },
          [call], [.conversation]⟩

/-- analyzeDocument of src/app/page.tsx (lines 165-236).  The guard uses
JS truthiness (no trimming).  When a PDF is held the upload transport is
consulted first: on reported failure the log is replaced by a single
assistant failure turn, loading is cleared and the stage is set back to
idle without any coordinator call; on a thrown exception the catch block
does the same with a fixed message.  Otherwise the conversation phase
runs with the acquired asset ids (empty when no PDF is held). -/
def analyzeDocument (s : HomeState) (uo : UploadOutcome)
    (ao : AgentOutcome AgentPayload) : StepOutput :=
  if s.pdfFile = none ∧ s.doiInput = "" ∧ s.arxivInput = "" then ⟨s, [], []⟩
  else
    let s0 := { s with isLoading := true, stage := ProcessingStage.uploading }
    let out : StepOutput :=
      match s.pdfFile with
      | some _ =>
        match uo with
        | .throw =>
            ⟨{ s0 with chatMessages := [⟨.assistant, "An error occurred during upload. Please try again."⟩],
                       isLoading := false, stage := .idle },
              [], [ProcessingStage.idle]⟩
        | .fail err =>
            ⟨{ s0 with chatMessages := [⟨.assistant, "Failed to upload PDF: " ++ err ++ ". Please try again."⟩],
                       isLoading := false, stage := .idle },
              [], [ProcessingStage.idle]⟩
        | .ok ids =>
            startConversation { s0 with uploadedAssetIds := ids } s.pdfFile ids ao
      | none => startConversation s0 none [] ao
    ⟨out.state, out.calls, ProcessingStage.uploading :: out.stageTrace⟩

/-- The aggregated-results merge of sendMessage (src/app/page.tsx lines
271-294): each present sub-field replaces the held value wholesale; the
summary case stores summary.key_points with a default of the empty
list. -/
def applyAggregated (s : HomeState) (agg : AggregatedResults) : HomeState :=
  let s1 := match agg.document_info with
    | some d => { s with documentInfo := some d }
    | none => s
  let s2 := match agg.paper_analysis with
    | some u => { s1 with understanding := some u }
    | none => s1
  let s3 := match agg.summary with
    | some sm => { s2 with keyTakeaways := sm.key_points.getD [] }
    | none => s2
  let s4 := match agg.recommendations with
    | some l => { s3 with recommendations := l }
    | none => s3
  match agg.quality_validation with
  | some q => { s4 with qualityScore := q.quality_score }
  | none => s4

/-- sendMessage of src/app/page.tsx (lines 238-316): reject when the
trimmed input is empty or a call is in flight; otherwise clear the input
box, append the user turn, set loading, call the coordinator with the
full stored asset-id list, and handle the reply: on success append the
assistant turn and, when aggregated results are present, set the stage to
analyzing, merge the sub-results and set the stage to complete; on a
non-success reply or a thrown exception append a fixed failure turn.
Loading is cleared on every path past the guard. -/
def sendMessage (s : HomeState) (ao : AgentOutcome AgentPayload) : StepOutput :=
  if jsTrim s.userInput = "" ∨ s.isLoading then ⟨s, [], []⟩
  else
    let message := jsTrim s.userInput
    let s1 := { s with userInput := "",
                       chatMessages := s.chatMessages ++ [(⟨.user, message⟩ : ChatMessage)],
                       isLoading := true }
    let call : CoordinatorCall := ⟨message, DISCOVERY_COORDINATOR, s.uploadedAssetIds⟩
    match ao with
    | .throw =>
        ⟨{ s1 with chatMessages := s1.chatMessages ++
              [(⟨.assistant, "An error occurred. Please try again."⟩ : ChatMessage)],
                   isLoading := false },
          [call], []⟩
    | .result success status p =>
        if success ∧ status = "success" then
          let s2 := { s1 with chatMessages := s1.chatMessages ++
              [(⟨.assistant, jsOr p.user_message "Processing your request..."⟩ : ChatMessage)] }
          match p.aggregated_results with
          | none => ⟨{ s2 with isLoading := false }, [call], []⟩
          | some agg =>
              let s3 := applyAggregated { s2 with stage := .analyzing } agg
              ⟨{ s3 with stage := .complete, isLoading := false },
                [call], [.analyzing, .complete]⟩
        else
          ⟨{ s1 with chatMessages := s1.chatMessages ++
                [(⟨.assistant, "I encountered an issue processing your request. Please try again."⟩ : ChatMessage)],
                     isLoading := false },
            [call], []⟩

/-- exportSummary of src/app/page.tsx (lines 318-345): no artifact when
no DocumentInfo is held; otherwise the produced markdown text, built
exactly as the sequence of conditional concatenations in the source (the
file-save action on the produced blob is out of scope). -/
def exportSummary (s : HomeState) : Option String :=
  match s.documentInfo with
  | none => none
  | some d =>
      some ("# " ++ d.title ++ "\n\n"
        ++ (if d.authors.length > 0 then
              "**Authors:** " ++ String.intercalate ", " d.authors ++ "\n\n"
            else "")
        ++ (match s.understanding with
            | some u =>
                if u.problem_statement ≠ "" then
                  "## Problem Statement\n" ++ u.problem_statement ++ "\n\n"
                else ""
            | none => "")
        ++ (if s.keyTakeaways.length > 0 then
              "## Key Takeaways\n"
                ++ String.intercalate "\n"
                    (s.keyTakeaways.enum.map
                      (fun ik => toString (ik.1 + 1) ++ ". " ++ ik.2.point))
                ++ "\n\n"
            else "")
        ++ (if s.recommendations.length > 0 then
              "## Related Papers\n"
                ++ String.intercalate "\n"
                    (s.recommendations.map
                      (fun r => "- " ++ r.title ++ " (" ++ toString r.year ++ ")"))
                ++ "\n"
            else ""))

-- Embedding of the alternate page src/unnamed/part_000 (the
-- finer-grained guided-pipeline variant).

namespace P0

/-- PipelineStage union type of src/unnamed/part_000 (line 145). -/
inductive PipelineStage where
  | upload
  | parsing
  | understanding
  | summarizing
  | finding_papers
  | quality_check
  | complete
deriving DecidableEq, Repr

/-- ConversationState interface (three booleans). -/
structure ConversationState where
  user_input_received : Bool
  summarization_prompt_provided : Bool
  ready_to_proceed : Bool
deriving DecidableEq, Repr

/-- One parsed paper section of DocumentIngestionResult. -/
structure PaperSection where
  section_name : String
  content : String
  chunk_id : Nat
deriving DecidableEq, Repr

/-- DocumentIngestionResult interface of src/unnamed/part_000. -/
structure DocumentIngestionResult where
  title : String
  authors : List String
  abstract : String
  sections : List PaperSection
  references : List String
  validation_status : String
  validation_errors : List String
deriving DecidableEq, Repr

/-- paper_structure sub-object of the part_000 UnderstandingResult. -/
structure PaperStructure where
  sections_analyzed : List String
  has_clear_structure : Bool
deriving DecidableEq, Repr

/-- UnderstandingResult interface of src/unnamed/part_000 (it extends the
main-page shape with a paper_structure sub-object). -/
structure UnderstandingResult where
  problem_statement : String
  methodology : Methodology
  results : ResultsSection
  limitations : LimitationsSection
  key_claims : List KeyClaim
  paper_structure : PaperStructure
deriving DecidableEq, Repr

/-- SummarizationResult interface of src/unnamed/part_000. -/
structure SummarizationResult where
  summary : String
  focus_areas_addressed : List String
  tone : String
  depth_level : String
  key_points : List KeyPoint
  uncertainties : List String
  word_count : Nat
deriving DecidableEq, Repr

/-- similarity_factors sub-object of the part_000 Recommendation. -/
structure SimilarityFactors where
  semantic_similarity : Rat
  citation_overlap : Rat
  methodology_match : Rat
  recency_score : Rat
  impact_score : Rat
  interdisciplinary_relevance : Rat
deriving DecidableEq, Repr

/-- Recommendation interface of src/unnamed/part_000. -/
structure Recommendation where
  rank : Nat
  title : String
  authors : List String
  year : Int
  source : String
  doi_or_arxiv_id : String
  relevance_score : Rat
  relevance_explanation : String
  similarity_factors : SimilarityFactors
  abstract_snippet : String
deriving DecidableEq, Repr

/-- summary_validation sub-object of QualityControlResult. -/
structure SummaryValidation where
  coherence_score : Rat
  factual_grounding_verified : Bool
  hallucination_flags : List String
  redundancy_removed : List String
  issues_found : List String
deriving DecidableEq, Repr

/-- recommendations_validation sub-object of QualityControlResult. -/
structure RecommendationsValidation where
  relevance_verified : Bool
  all_recommendations_appropriate : Bool
  issues_found : List String
  recommendations_to_remove : List Nat
deriving DecidableEq, Repr

/-- QualityControlResult interface of src/unnamed/part_000. -/
structure QualityControlResult where
  validation_status : String
  summary_validation : SummaryValidation
  recommendations_validation : RecommendationsValidation
  uncertainty_flags : List String
  quality_score : Rat
  approved_for_delivery : Bool
  corrections_applied : List String
deriving DecidableEq, Repr

/-- DiscoveryCoordinatorResult interface of src/unnamed/part_000: the
reply payload the page casts the coordinator result to.  Its
aggregated_results member is typed with untyped (any) fields and is
never read by the modelled operations, so it is not carried here. -/
structure DCResult where
  workflow_stage : String
  conversation_state : ConversationState
  next_action : String
  user_message : String
  errors : List String
deriving DecidableEq, Repr

/-- The component state of the Home component of src/unnamed/part_000:
one field per useState cell. -/
structure State where
  pdfFile : Option String
  doiInput : String
  arxivInput : String
  dragActive : Bool
  chatMessages : List ChatMessage
  userInput : String
  isLoading : Bool
  currentStage : PipelineStage
  stagesCompleted : Finset PipelineStage
  documentInfo : Option DocumentIngestionResult
  understandingResult : Option UnderstandingResult
  summaryResult : Option SummarizationResult
  recommendations : List Recommendation
  qualityResult : Option QualityControlResult
  expandedSections : Finset String
  sidebarOpen : Bool
  showResults : Bool
deriving DecidableEq

/-- Initial values of the useState cells of src/unnamed/part_000. -/
def initialState : State where
  pdfFile := none
  doiInput := ""
  arxivInput := ""
  dragActive := false
  chatMessages := []
  userInput := ""
  isLoading := false
  currentStage := .upload
  stagesCompleted := ∅
  documentInfo := none
  understandingResult := none
  summaryResult := none
  recommendations := []
  qualityResult := none
  expandedSections := {"problem"}
  sidebarOpen := true
  showResults := false

/-- A coordinator call as issued by src/unnamed/part_000:
callAIAgent(message, agentId), without an assets argument. -/
structure Call where
  message : String
  agent : String
deriving DecidableEq, Repr

/-- markStageComplete of src/unnamed/part_000 (lines 220-222): add the
stage to the completed set. -/
def markStageComplete (s : State) (stage : PipelineStage) : State :=
  { s with stagesCompleted := insert stage s.stagesCompleted }

/-- The synthesized opening message of src/unnamed/part_000 line 234. -/
def initialMessage (pf : Option String) (doi arxiv : String) : String :=
  "I\x27ve uploaded a paper"
    ++ (match pf with
        | some name => " (PDF: " ++ name ++ ")"
        | none => "")
    ++ (if doi ≠ "" then " (DOI: " ++ doi ++ ")" else "")
    ++ (if arxiv ≠ "" then " (arXiv: " ++ arxiv ++ ")" else "")
    ++ ". Please help me analyze it."

/-- analyzeForm of src/unnamed/part_000 (lines 224-255): guard on the
three references (JS truthiness, no trimming); set loading, set the
current stage to parsing, show the results panel, replace the log with
the opening user turn, call the coordinator; on a successful reply append
the assistant turn and clear loading; on a thrown exception clear
loading.  Note that when the reply resolves with success false or a
non-success status, nothing runs after the if block: loading is not
cleared on that path. -/
def analyzeForm (s : State) (ao : AgentOutcome DCResult) : State × List Call :=
  if s.pdfFile = none ∧ s.doiInput = "" ∧ s.arxivInput = "" then (s, [])
  else
    let msg := initialMessage s.pdfFile s.doiInput s.arxivInput
    let s1 := { s with isLoading := true, currentStage := PipelineStage.parsing,
                       showResults := true,
                       chatMessages := [(⟨.user, msg⟩ : ChatMessage)] }
    let call : Call := ⟨msg, DISCOVERY_COORDINATOR⟩
    match ao with
    | .throw => ({ s1 with isLoading := false }, [call])
    | .result success status payload =>
        if success ∧ status = "success" then
          ({ s1 with chatMessages := s1.chatMessages ++
                [(⟨.assistant, payload.user_message⟩ : ChatMessage)],
                     isLoading := false }, [call])
        else (s1, [call])

/-- sendMessage of src/unnamed/part_000 (lines 257-289): guard on empty
(untrimmed is appended; the guard trims) input or loading; append the
user turn, call the coordinator; on a successful reply append the
assistant turn and, when next_action is trigger_ingestion, set the
current stage to parsing (the delayed mock-ingestion chain scheduled by
setTimeout is a separate later event and is not part of this handler);
loading is cleared after the if and in the catch. -/
def sendMessage (s : State) (ao : AgentOutcome DCResult) : State × List Call :=
  if jsTrim s.userInput = "" ∨ s.isLoading then (s, [])
  else
    let message := s.userInput
    let s1 := { s with userInput := "",
                       chatMessages := s.chatMessages ++ [(⟨.user, message⟩ : ChatMessage)],
                       isLoading := true }
    let call : Call := ⟨message, DISCOVERY_COORDINATOR⟩
    match ao with
    | .throw => ({ s1 with isLoading := false }, [call])
    | .result success status payload =>
        if success ∧ status = "success" then
          let s2 := { s1 with chatMessages := s1.chatMessages ++
              [(⟨.assistant, payload.user_message⟩ : ChatMessage)] }
          let s3 := if payload.next_action = "trigger_ingestion" then
              { s2 with currentStage := PipelineStage.parsing }
            else s2
          ({ s3 with isLoading := false }, [call])
        else ({ s1 with isLoading := false }, [call])

/-- exportSummary of src/unnamed/part_000 (lines 520-531): no artifact
when no SummarizationResult is held; otherwise a markdown text opening
with a fixed heading, the summary text and the bulleted key points (the
file-save action is out of scope). -/
def exportSummary (s : State) : Option String :=
  match s.summaryResult with
  | none => none
  | some sr =>
      some ("# Research Paper Summary\n\n" ++ sr.summary
        ++ "\n\n## Key Points\n"
        ++ String.intercalate "\n"
            (sr.key_points.map
              (fun p => "- " ++ p.point ++ " (" ++ p.section_reference ++ ")")))

end P0

-- Helper lemmas: how applyAggregated acts on each component of the
-- state.  Every sub-field update touches only its own result cell.

/-- applyAggregated never changes the stage cell. -/
lemma applyAggregated_stage (s : HomeState) (agg : AggregatedResults) :
    (applyAggregated s agg).stage = s.stage := by
  obtain ⟨di, pa, sm, rec, qv⟩ := agg
  cases di <;> cases pa <;> cases sm <;> cases rec <;> cases qv <;> rfl

/-- applyAggregated never changes the loading flag. -/
lemma applyAggregated_isLoading (s : HomeState) (agg : AggregatedResults) :
    (applyAggregated s agg).isLoading = s.isLoading := by
  obtain ⟨di, pa, sm, rec, qv⟩ := agg
  cases di <;> cases pa <;> cases sm <;> cases rec <;> cases qv <;> rfl

/-- applyAggregated never changes the conversation log. -/
lemma applyAggregated_chatMessages (s : HomeState) (agg : AggregatedResults) :
    (applyAggregated s agg).chatMessages = s.chatMessages := by
  obtain ⟨di, pa, sm, rec, qv⟩ := agg
  cases di <;> cases pa <;> cases sm <;> cases rec <;> cases qv <;> rfl

/-- applyAggregated never changes the stored asset ids. -/
lemma applyAggregated_uploadedAssetIds (s : HomeState) (agg : AggregatedResults) :
    (applyAggregated s agg).uploadedAssetIds = s.uploadedAssetIds := by
  obtain ⟨di, pa, sm, rec, qv⟩ := agg
  cases di <;> cases pa <;> cases sm <;> cases rec <;> cases qv <;> rfl

/-- The held DocumentInfo after the merge: replaced when present,
untouched when absent. -/
lemma applyAggregated_documentInfo (s : HomeState) (agg : AggregatedResults) :
    (applyAggregated s agg).documentInfo =
      (match agg.document_info with
       | some d => some d
       | none => s.documentInfo) := by
  obtain ⟨di, pa, sm, rec, qv⟩ := agg
  cases di <;> cases pa <;> cases sm <;> cases rec <;> cases qv <;> rfl

/-- The held UnderstandingResult after the merge: replaced when present,
untouched when absent. -/
lemma applyAggregated_understanding (s : HomeState) (agg : AggregatedResults) :
    (applyAggregated s agg).understanding =
      (match agg.paper_analysis with
       | some u => some u
       | none => s.understanding) := by
  obtain ⟨di, pa, sm, rec, qv⟩ := agg
  cases di <;> cases pa <;> cases sm <;> cases rec <;> cases qv <;> rfl

/-- The held key takeaways after the merge: when a summary object is
present they become its key_points, defaulted to the empty list when the
key_points member is itself absent; without a summary object they are
untouched. -/
lemma applyAggregated_keyTakeaways (s : HomeState) (agg : AggregatedResults) :
    (applyAggregated s agg).keyTakeaways =
      (match agg.summary with
       | some sm => sm.key_points.getD []
       | none => s.keyTakeaways) := by
  obtain ⟨di, pa, sm, rec, qv⟩ := agg
  cases di <;> cases pa <;> cases sm <;> cases rec <;> cases qv <;> rfl

/-- The held recommendation list after the merge: replaced when present,
untouched when absent. -/
lemma applyAggregated_recommendations (s : HomeState) (agg : AggregatedResults) :
    (applyAggregated s agg).recommendations =
      (match agg.recommendations with
       | some l => l
       | none => s.recommendations) := by
  obtain ⟨di, pa, sm, rec, qv⟩ := agg
  cases di <;> cases pa <;> cases sm <;> cases rec <;> cases qv <;> rfl

/-- The held quality score after the merge: overwritten with whatever
quality_score member the quality_validation object carries (absent
included) when that object is present, untouched when it is absent. -/
lemma applyAggregated_qualityScore (s : HomeState) (agg : AggregatedResults) :
    (applyAggregated s agg).qualityScore =
      (match agg.quality_validation with
       | some q => q.quality_score
       | none => s.qualityScore) := by
  obtain ⟨di, pa, sm, rec, qv⟩ := agg
  cases di <;> cases pa <;> cases sm <;> cases rec <;> cases qv <;> rfl

-- Claim theorems.

/-- C10: for every section key s and expanded-section set E, toggling s
flips exactly the membership of s (every other key t keeps its
membership), and toggling s twice returns the set to E. -/
theorem C10_toggleSection_flip_involution (e : Finset String) (s t : String) :
    (s ∈ toggleSection e s ↔ s ∉ e)
    ∧ (t ≠ s → (t ∈ toggleSection e s ↔ t ∈ e))
    ∧ toggleSection (toggleSection e s) s = e := by
  by_cases h : s ∈ e
  · refine ⟨by simp [toggleSection, h],
      fun ht => by simp [toggleSection, h, Finset.mem_erase, ht], ?_⟩
    simp [toggleSection, h, Finset.mem_erase, Finset.insert_erase h]
  · refine ⟨by simp [toggleSection, h],
      fun ht => by simp [toggleSection, h, ht], ?_⟩
    simp [toggleSection, h, Finset.erase_insert h]

/-- Witness for C10 at the initial expanded set: toggling the methodology
key flips it, leaves the problem key alone, and is undone by a second
toggle. -/
theorem C10_witness :
    ("methodology" ∈ toggleSection {"problem"} "methodology"
        ↔ "methodology" ∉ ({"problem"} : Finset String))
    ∧ ("problem" ∈ toggleSection {"problem"} "methodology"
        ↔ "problem" ∈ ({"problem"} : Finset String))
    ∧ toggleSection (toggleSection {"problem"} "methodology") "methodology"
        = ({"problem"} : Finset String) :=
  ⟨(C10_toggleSection_flip_involution {"problem"} "methodology" "problem").1,
   (C10_toggleSection_flip_involution {"problem"} "methodology" "problem").2.1 (by decide),
   (C10_toggleSection_flip_involution {"problem"} "methodology" "problem").2.2⟩

/-- C4: every coordinator call issued by sendMessage carries exactly the
full stored asset-id list of the session, and sendMessage never changes
the stored asset-id list, so later turns cannot drop earlier
references. -/
theorem C4_sendMessage_full_asset_set (s : HomeState) (ao : AgentOutcome AgentPayload) :
    ((sendMessage s ao).calls = []
      ∨ (sendMessage s ao).calls
          = [⟨jsTrim s.userInput, DISCOVERY_COORDINATOR, s.uploadedAssetIds⟩])
    ∧ (sendMessage s ao).state.uploadedAssetIds = s.uploadedAssetIds := by
  unfold sendMessage
  split
  · exact ⟨Or.inl rfl, rfl⟩
  · split
    · exact ⟨Or.inr rfl, rfl⟩
    · split
      · split
        · exact ⟨Or.inr rfl, rfl⟩
        · exact ⟨Or.inr rfl, by simp [applyAggregated_uploadedAssetIds]⟩
      · exact ⟨Or.inr rfl, rfl⟩

/-- C3: a successful coordinator reply whose payload carries no
aggregated_results object leaves the stage and every held result
untouched, and only appends the two turns of the exchange to the
conversation log. -/
theorem C3_no_results_payload_frame (s : HomeState) (p : AgentPayload)
    (h1 : jsTrim s.userInput ≠ "") (h2 : s.isLoading = false)
    (h3 : p.aggregated_results = none) :
    (sendMessage s (.result true "success" p)).state.stage = s.stage
    ∧ (sendMessage s (.result true "success" p)).state.documentInfo = s.documentInfo
    ∧ (sendMessage s (.result true "success" p)).state.understanding = s.understanding
    ∧ (sendMessage s (.result true "success" p)).state.keyTakeaways = s.keyTakeaways
    ∧ (sendMessage s (.result true "success" p)).state.recommendations = s.recommendations
    ∧ (sendMessage s (.result true "success" p)).state.qualityScore = s.qualityScore
    ∧ (sendMessage s (.result true "success" p)).state.chatMessages
        = s.chatMessages
          ++ [⟨.user, jsTrim s.userInput⟩,
              ⟨.assistant, jsOr p.user_message "Processing your request..."⟩] := by
  have hg : ¬(jsTrim s.userInput = "" ∨ s.isLoading) := by simp [h1, h2]
  simp [sendMessage, hg, h3]

/-- Witness for C3: a concrete turn against a reply with no aggregated
results only appends the two turns. -/
theorem C3_witness :
    jsTrim ({ initialState with userInput := "Focus on methodology" } : HomeState).userInput ≠ ""
    ∧ (sendMessage { initialState with userInput := "Focus on methodology" }
          (.result true "success" ⟨some "Noted.", none, none⟩)).state.chatMessages
        = ({ initialState with userInput := "Focus on methodology" } : HomeState).chatMessages
          ++ [⟨.user, jsTrim ({ initialState with userInput := "Focus on methodology" } : HomeState).userInput⟩,
              ⟨.assistant, jsOr (some "Noted.") "Processing your request..."⟩] :=
  ⟨by decide,
   (C3_no_results_payload_frame { initialState with userInput := "Focus on methodology" }
      ⟨some "Noted.", none, none⟩ (by decide) rfl rfl).2.2.2.2.2.2⟩

/-- C5: when the upload transport reports failure, analyzeDocument ends
with the stage at idle, the conversation log holding exactly the one
assistant turn naming the failure, no coordinator call issued and the
loading flag cleared. -/
theorem C5_upload_failure (s : HomeState) (f err : String)
    (h : s.pdfFile = some f) (ao : AgentOutcome AgentPayload) :
    (analyzeDocument s (.fail err) ao).state.stage = .idle
    ∧ (analyzeDocument s (.fail err) ao).state.chatMessages
        = [⟨.assistant, "Failed to upload PDF: " ++ err ++ ". Please try again."⟩]
    ∧ (analyzeDocument s (.fail err) ao).calls = []
    ∧ (analyzeDocument s (.fail err) ao).state.isLoading = false := by
  have hg : ¬(s.pdfFile = none ∧ s.doiInput = "" ∧ s.arxivInput = "") := by simp [h]
  simp [analyzeDocument, hg, h]

/-- Witness for C5: the end-to-end scenario of the spec, an upload that
fails with a disk-full error. -/
theorem C5_witness :
    ({ initialState with pdfFile := some "paper.pdf" } : HomeState).pdfFile = some "paper.pdf"
    ∧ (analyzeDocument { initialState with pdfFile := some "paper.pdf" }
        (.fail "disk full") .throw).state.stage = .idle
    ∧ (analyzeDocument { initialState with pdfFile := some "paper.pdf" }
        (.fail "disk full") .throw).state.chatMessages
        = [⟨.assistant, "Failed to upload PDF: disk full. Please try again."⟩]
    ∧ (analyzeDocument { initialState with pdfFile := some "paper.pdf" }
        (.fail "disk full") .throw).calls = [] :=
  ⟨rfl,
   (C5_upload_failure { initialState with pdfFile := some "paper.pdf" }
      "paper.pdf" "disk full" rfl .throw).1,
   (C5_upload_failure { initialState with pdfFile := some "paper.pdf" }
      "paper.pdf" "disk full" rfl .throw).2.1,
   (C5_upload_failure { initialState with pdfFile := some "paper.pdf" }
      "paper.pdf" "disk full" rfl .throw).2.2.1⟩

/-- Counterexample for C2 as frozen: a payload whose aggregated_results
carries a summary object without a key_points member has the key_points
sub-field absent, yet sendMessage replaces the previously held takeaway
list with the empty list instead of leaving it unchanged. -/
theorem C2_counterexample :
    ({ initialState with userInput := "go", keyTakeaways := [⟨"old point", "S1"⟩] } : HomeState).keyTakeaways ≠ []
    ∧ (sendMessage
        { initialState with userInput := "go", keyTakeaways := [⟨"old point", "S1"⟩] }
        (.result true "success"
          ⟨some "done", none, some ⟨none, none, some ⟨none⟩, none, none⟩⟩)).state.keyTakeaways
        = [] := by
  exact ⟨by simp, rfl⟩

/-- C2 amended: on a successful reply carrying aggregated_results the
stage is set to analyzing and then complete, each present sub-field
replaces the held value wholesale and each absent sub-field leaves the
held value unchanged, except that a present summary object whose
key_points member is absent resets the takeaway list to the empty list,
and a present quality_validation object whose quality_score member is
absent clears the held quality score (the code stores the member with no
default). -/
theorem C2_amended (s : HomeState) (p : AgentPayload) (agg : AggregatedResults)
    (h1 : jsTrim s.userInput ≠ "") (h2 : s.isLoading = false)
    (h3 : p.aggregated_results = some agg) :
    (sendMessage s (.result true "success" p)).stageTrace
        = [.analyzing, .complete]
    ∧ (sendMessage s (.result true "success" p)).state.stage = .complete
    ∧ (∀ d, agg.document_info = some d →
        (sendMessage s (.result true "success" p)).state.documentInfo = some d)
    ∧ (agg.document_info = none →
        (sendMessage s (.result true "success" p)).state.documentInfo = s.documentInfo)
    ∧ (∀ u, agg.paper_analysis = some u →
        (sendMessage s (.result true "success" p)).state.understanding = some u)
    ∧ (agg.paper_analysis = none →
        (sendMessage s (.result true "success" p)).state.understanding = s.understanding)
    ∧ (∀ kps, agg.summary = some ⟨some kps⟩ →
        (sendMessage s (.result true "success" p)).state.keyTakeaways = kps)
    ∧ (agg.summary = some ⟨none⟩ →
        (sendMessage s (.result true "success" p)).state.keyTakeaways = [])
    ∧ (agg.summary = none →
        (sendMessage s (.result true "success" p)).state.keyTakeaways = s.keyTakeaways)
    ∧ (∀ l, agg.recommendations = some l →
        (sendMessage s (.result true "success" p)).state.recommendations = l)
    ∧ (agg.recommendations = none →
        (sendMessage s (.result true "success" p)).state.recommendations = s.recommendations)
    ∧ (∀ r, agg.quality_validation = some ⟨some r⟩ →
        (sendMessage s (.result true "success" p)).state.qualityScore = some r)
    ∧ (agg.quality_validation = some ⟨none⟩ →
        (sendMessage s (.result true "success" p)).state.qualityScore = none)
    ∧ (agg.quality_validation = none →
        (sendMessage s (.result true "success" p)).state.qualityScore = s.qualityScore) := by
  have hg : ¬(jsTrim s.userInput = "" ∨ s.isLoading) := by simp [h1, h2]
  refine ⟨?_, ?_, ?_, ?_, ?_, ?_, ?_, ?_, ?_, ?_, ?_, ?_, ?_, ?_⟩
  · simp [sendMessage, hg, h3]
  · simp [sendMessage, hg, h3]
  · intro d hd
    simp [sendMessage, hg, h3, applyAggregated_documentInfo, hd]
  · intro hd
    simp [sendMessage, hg, h3, applyAggregated_documentInfo, hd]
  · intro u hu
    simp [sendMessage, hg, h3, applyAggregated_understanding, hu]
  · intro hu
    simp [sendMessage, hg, h3, applyAggregated_understanding, hu]
  · intro kps hk
    simp [sendMessage, hg, h3, applyAggregated_keyTakeaways, hk]
  · intro hk
    simp [sendMessage, hg, h3, applyAggregated_keyTakeaways, hk]
  · intro hk
    simp [sendMessage, hg, h3, applyAggregated_keyTakeaways, hk]
  · intro l hl
    simp [sendMessage, hg, h3, applyAggregated_recommendations, hl]
  · intro hl
    simp [sendMessage, hg, h3, applyAggregated_recommendations, hl]
  · intro r hq
    simp [sendMessage, hg, h3, applyAggregated_qualityScore, hq]
  · intro hq
    simp [sendMessage, hg, h3, applyAggregated_qualityScore, hq]
  · intro hq
    simp [sendMessage, hg, h3, applyAggregated_qualityScore, hq]

/-- Witness for C2 at concrete partial payloads: document_info present
is stored, the stage reaches complete through analyzing, and a present
quality_validation object without a quality_score member clears a
previously held score. -/
theorem C2_witness :
    jsTrim ({ initialState with userInput := "go", recommendations := [] } : HomeState).userInput ≠ ""
    ∧ (sendMessage { initialState with userInput := "go", recommendations := [] }
        (.result true "success"
          ⟨some "done", none,
            some ⟨some ⟨"Attention Is All You Need", ["Ashish Vaswani"], "abs", none⟩,
              none, none, none, none⟩⟩)).stageTrace = [.analyzing, .complete]
    ∧ (sendMessage { initialState with userInput := "go", recommendations := [] }
        (.result true "success"
          ⟨some "done", none,
            some ⟨some ⟨"Attention Is All You Need", ["Ashish Vaswani"], "abs", none⟩,
              none, none, none, none⟩⟩)).state.documentInfo
        = some ⟨"Attention Is All You Need", ["Ashish Vaswani"], "abs", none⟩
    ∧ (sendMessage { initialState with userInput := "go", qualityScore := some 1 }
        (.result true "success"
          ⟨some "done", none, some ⟨none, none, none, none, some ⟨none⟩⟩⟩)).state.qualityScore
        = none :=
  ⟨by decide,
   (C2_amended { initialState with userInput := "go", recommendations := [] }
      ⟨some "done", none,
        some ⟨some ⟨"Attention Is All You Need", ["Ashish Vaswani"], "abs", none⟩,
          none, none, none, none⟩⟩
      ⟨some ⟨"Attention Is All You Need", ["Ashish Vaswani"], "abs", none⟩,
        none, none, none, none⟩
      (by decide) rfl rfl).1,
   (C2_amended { initialState with userInput := "go", recommendations := [] }
      ⟨some "done", none,
        some ⟨some ⟨"Attention Is All You Need", ["Ashish Vaswani"], "abs", none⟩,
          none, none, none, none⟩⟩
      ⟨some ⟨"Attention Is All You Need", ["Ashish Vaswani"], "abs", none⟩,
        none, none, none, none⟩
      (by decide) rfl rfl).2.2.1
      ⟨"Attention Is All You Need", ["Ashish Vaswani"], "abs", none⟩ rfl,
   (C2_amended { initialState with userInput := "go", qualityScore := some 1 }
      ⟨some "done", none, some ⟨none, none, none, none, some ⟨none⟩⟩⟩
      ⟨none, none, none, none, some ⟨none⟩⟩
      (by decide) rfl rfl).2.2.2.2.2.2.2.2.2.2.2.2.1 rfl⟩

/-- The conversation phase ends with the stage at idle (thrown
exception) or at conversation (reply received, successful or not). -/
lemma startConversation_stage (s0 : HomeState) (pf : Option String)
    (ids : List String) (ao : AgentOutcome AgentPayload) :
    (startConversation s0 pf ids ao).state.stage = .idle
    ∨ (startConversation s0 pf ids ao).state.stage = .conversation := by
  unfold startConversation
  split
  · exact Or.inl rfl
  · split
    · exact Or.inr rfl
    · exact Or.inr rfl

/-- sendMessage ends with the stage unchanged or at complete. -/
lemma sendMessage_stage (s : HomeState) (ao : AgentOutcome AgentPayload) :
    (sendMessage s ao).state.stage = s.stage
    ∨ (sendMessage s ao).state.stage = .complete := by
  unfold sendMessage
  split
  · exact Or.inl rfl
  · split
    · exact Or.inl rfl
    · split
      · split
        · exact Or.inl rfl
        · exact Or.inr rfl
      · exact Or.inl rfl

/-- analyzeDocument ends with the stage unchanged (guard rejection), at
idle (failure paths) or at conversation. -/
lemma analyzeDocument_stage (s : HomeState) (uo : UploadOutcome)
    (ao : AgentOutcome AgentPayload) :
    (analyzeDocument s uo ao).state.stage = s.stage
    ∨ (analyzeDocument s uo ao).state.stage = .idle
    ∨ (analyzeDocument s uo ao).state.stage = .conversation := by
  unfold analyzeDocument
  split
  · exact Or.inl rfl
  · split
    · split
      · exact Or.inr (Or.inl rfl)
      · exact Or.inr (Or.inl rfl)
      · exact Or.inr (startConversation_stage _ _ _ _)
    · exact Or.inr (startConversation_stage _ _ _ _)

/-- Counterexample for C1 as frozen: on an upload failure the failure
path of analyzeDocument assigns uploading and then idle to the stage
cell, and idle sits strictly earlier than uploading in the defined
progression, so a non-reset operation does set the stage backward. -/
theorem C1_counterexample :
    (analyzeDocument { initialState with pdfFile := some "paper.pdf" }
        (.fail "disk full") .throw).stageTrace
      = [.uploading, .idle]
    ∧ stageIdx .idle < stageIdx .uploading :=
  ⟨rfl, by decide⟩

/-- C1 amended: at whole-operation granularity the stage never ends
earlier than where forward progress allows: sendMessage finishes with the
stage unchanged or at complete, and analyzeDocument finishes with the
stage unchanged, at conversation, or back at the initial stage idle (its
failure paths revert to idle, the mid-operation backward assignment
exhibited by the counterexample; since the upload form is only rendered
at idle, an analyzeDocument invocation still never finishes below its
starting stage). -/
theorem C1_amended (s : HomeState) (uo : UploadOutcome)
    (ao : AgentOutcome AgentPayload) :
    ((sendMessage s ao).state.stage = s.stage
      ∨ (sendMessage s ao).state.stage = .complete)
    ∧ ((analyzeDocument s uo ao).state.stage = s.stage
      ∨ (analyzeDocument s uo ao).state.stage = .idle
      ∨ (analyzeDocument s uo ao).state.stage = .conversation) :=
  ⟨sendMessage_stage s ao, analyzeDocument_stage s uo ao⟩

/-- C6 at the failing input: when the coordinator reply resolves with
success false (a soft failure), analyzeForm of the alternate page leaves
the loading flag set, because its only clearing statements sit inside the
success branch and the catch block; the main page clears the flag on the
same outcome, showing the intended behaviour. -/
theorem C6_analyzeForm_soft_failure_keeps_loading :
    ({ P0.initialState with doiInput := "10.1234/abc" } : P0.State).isLoading = false
    ∧ (P0.analyzeForm { P0.initialState with doiInput := "10.1234/abc" }
        (.result false "error"
          ⟨"conversation", ⟨true, false, false⟩, "await_user", "Sorry.", []⟩)).1.isLoading
        = true
    ∧ (sendMessage { initialState with userInput := "hello" }
        (.result false "error" ⟨none, none, none⟩)).state.isLoading = false
    ∧ (analyzeDocument { initialState with doiInput := "10.1234/abc" } (.ok [])
        (.result false "error" ⟨none, none, none⟩)).state.isLoading = false :=
  ⟨rfl, rfl, rfl, rfl⟩

/-- Counterexample for C7 as frozen: with no file, a whitespace-only DOI
field (empty after trimming) and an empty arXiv field, the untrimmed
truthiness guard lets analyzeDocument proceed and issue a coordinator
call. -/
theorem C7_counterexample :
    ({ initialState with doiInput := " " } : HomeState).pdfFile = none
    ∧ jsTrim ({ initialState with doiInput := " " } : HomeState).doiInput = ""
    ∧ jsTrim ({ initialState with doiInput := " " } : HomeState).arxivInput = ""
    ∧ (analyzeDocument { initialState with doiInput := " " } (.ok [])
        (.result true "success" ⟨some "Hi", none, none⟩)).calls.length = 1 :=
  ⟨rfl, rfl, rfl, rfl⟩

/-- C7 amended: submitting triggers no coordinator call when no file is
held and the DOI and arXiv fields are exactly the empty string (the
guards of both pages test JS truthiness without trimming, so a
whitespace-only field counts as a supplied reference). -/
theorem C7_amended :
    (∀ (s : HomeState) (uo : UploadOutcome) (ao : AgentOutcome AgentPayload),
        s.pdfFile = none → s.doiInput = "" → s.arxivInput = "" →
        analyzeDocument s uo ao = ⟨s, [], []⟩)
    ∧ (∀ (p : P0.State) (ao : AgentOutcome P0.DCResult),
        p.pdfFile = none → p.doiInput = "" → p.arxivInput = "" →
        P0.analyzeForm p ao = (p, [])) := by
  constructor
  · intro s uo ao h1 h2 h3
    simp [analyzeDocument, h1, h2, h3]
  · intro p ao h1 h2 h3
    simp [P0.analyzeForm, h1, h2, h3]

/-- Witness for C7 amended at the initial states of both pages. -/
theorem C7_witness :
    initialState.pdfFile = none
    ∧ initialState.doiInput = ""
    ∧ initialState.arxivInput = ""
    ∧ analyzeDocument initialState (.ok []) .throw = ⟨initialState, [], []⟩
    ∧ P0.analyzeForm P0.initialState .throw = (P0.initialState, []) :=
  ⟨rfl, rfl, rfl,
   C7_amended.1 initialState (.ok []) .throw rfl rfl rfl,
   C7_amended.2 P0.initialState .throw rfl rfl rfl⟩

/-- Counterexample for C8 as frozen: starting from a log that still holds
the assistant turn of an earlier failed attempt, analyzeDocument replaces
the log with a fresh opening user turn, so the prior log is not a prefix
of the new one. -/
theorem C8_counterexample :
    ¬ ∃ t, ({ initialState with doiInput := "10.1234/x", chatMessages := [⟨.assistant, "Failed to upload PDF: disk full. Please try again."⟩] } : HomeState).chatMessages ++ t
      = (analyzeDocument { initialState with doiInput := "10.1234/x", chatMessages := [⟨.assistant, "Failed to upload PDF: disk full. Please try again."⟩] }
          (.ok []) (.result true "success" ⟨some "Hi", none, none⟩)).state.chatMessages := by
  rintro ⟨t, ht⟩
  have hr : (analyzeDocument { initialState with doiInput := "10.1234/x", chatMessages := [⟨.assistant, "Failed to upload PDF: disk full. Please try again."⟩] }
          (.ok []) (.result true "success" ⟨some "Hi", none, none⟩)).state.chatMessages
      = [⟨.user, initialMessage none "10.1234/x" ""⟩, ⟨.assistant, "Hi"⟩] := rfl
  rw [hr] at ht
  simp at ht

/-- C8 amended: the conversation log is append-only under sendMessage
(the prior log is always a prefix of the new one); analyzeDocument
instead begins the session log afresh, discarding turns left over from a
failed earlier attempt. -/
theorem C8_amended (s : HomeState) (ao : AgentOutcome AgentPayload) :
    ∃ t, (sendMessage s ao).state.chatMessages = s.chatMessages ++ t := by
  unfold sendMessage
  split
  · exact ⟨[], by simp⟩
  · split
    · exact ⟨[⟨.user, jsTrim s.userInput⟩,
        ⟨.assistant, "An error occurred. Please try again."⟩], by simp⟩
    · rename_i su st p
      split
      · split
        · exact ⟨[⟨.user, jsTrim s.userInput⟩,
            ⟨.assistant, jsOr p.user_message "Processing your request..."⟩], by simp⟩
        · exact ⟨[⟨.user, jsTrim s.userInput⟩,
            ⟨.assistant, jsOr p.user_message "Processing your request..."⟩],
            by simp [applyAggregated_chatMessages]⟩
      · exact ⟨[⟨.user, jsTrim s.userInput⟩,
          ⟨.assistant, "I encountered an issue processing your request. Please try again."⟩],
          by simp⟩

/-- Counterexample for C9 as frozen: the alternate page produces an
export artifact from a held summary result even though no DocumentInfo
is held, so the export operation is not a no-op without DocumentInfo. -/
theorem C9_counterexample :
    ({ P0.initialState with summaryResult := some ⟨"A survey of attention.", [], "academic", "detailed", [⟨"p1", "Methods"⟩], [], 12⟩ } : P0.State).documentInfo = none
    ∧ P0.exportSummary { P0.initialState with summaryResult := some ⟨"A survey of attention.", [], "academic", "detailed", [⟨"p1", "Methods"⟩], [], 12⟩ } ≠ none := by
  refine ⟨rfl, ?_⟩
  simp [P0.exportSummary]

/-- C9 amended: the main page exports no artifact without a DocumentInfo
and, when one is held, opens the produced text with a heading line
consisting of a hash mark and the document title; the alternate page
instead keys its export on the held summary result and opens with the
fixed heading Research Paper Summary. -/
theorem C9_amended :
    (∀ s : HomeState, s.documentInfo = none → exportSummary s = none)
    ∧ (∀ (s : HomeState) (d : DocumentInfo), s.documentInfo = some d →
        ∃ rest, exportSummary s = some ("# " ++ d.title ++ "\n\n" ++ rest))
    ∧ (∀ p : P0.State, p.summaryResult = none → P0.exportSummary p = none)
    ∧ (∀ (p : P0.State) (sr : P0.SummarizationResult), p.summaryResult = some sr →
        ∃ rest, P0.exportSummary p = some ("# Research Paper Summary\n\n" ++ rest)) := by
  refine ⟨?_, ?_, ?_, ?_⟩
  · intro s hd
    simp [exportSummary, hd]
  · intro s d hd
    refine ⟨(if d.authors.length > 0 then
          "**Authors:** " ++ String.intercalate ", " d.authors ++ "\n\n" else "")
        ++ (match s.understanding with
            | some u =>
                if u.problem_statement ≠ "" then
                  "## Problem Statement\n" ++ u.problem_statement ++ "\n\n"
                else ""
            | none => "")
        ++ (if s.keyTakeaways.length > 0 then
              "## Key Takeaways\n"
                ++ String.intercalate "\n"
                    (s.keyTakeaways.enum.map
                      (fun ik => toString (ik.1 + 1) ++ ". " ++ ik.2.point))
                ++ "\n\n"
            else "")
        ++ (if s.recommendations.length > 0 then
              "## Related Papers\n"
                ++ String.intercalate "\n"
                    (s.recommendations.map
                      (fun r => "- " ++ r.title ++ " (" ++ toString r.year ++ ")"))
                ++ "\n"
            else ""), ?_⟩
    simp only [exportSummary, hd]
    simp only [String.append_assoc]
  · intro p hs
    simp [P0.exportSummary, hs]
  · intro p sr hs
    refine ⟨sr.summary ++ "\n\n## Key Points\n"
        ++ String.intercalate "\n"
            (sr.key_points.map
              (fun q => "- " ++ q.point ++ " (" ++ q.section_reference ++ ")")), ?_⟩
    simp only [P0.exportSummary, hs]
    simp only [String.append_assoc]

/-- Witness for C9 amended: the initial states export nothing, a held
DocumentInfo puts its title in the opening heading of the main-page
export, and a held summary result makes the alternate page export its
fixed heading. -/
theorem C9_witness :
    exportSummary initialState = none
    ∧ (∃ rest, exportSummary { initialState with documentInfo := some ⟨"Attention Is All You Need", ["Ashish Vaswani"], "The paper presents the Transformer.", none⟩ }
        = some ("# " ++ "Attention Is All You Need" ++ "\n\n" ++ rest))
    ∧ P0.exportSummary P0.initialState = none
    ∧ (∃ rest, P0.exportSummary { P0.initialState with summaryResult := some ⟨"A survey of attention.", [], "academic", "detailed", [⟨"p1", "Methods"⟩], [], 12⟩ }
        = some ("# Research Paper Summary\n\n" ++ rest)) :=
  ⟨C9_amended.1 initialState rfl,
   C9_amended.2.1 { initialState with documentInfo := some ⟨"Attention Is All You Need", ["Ashish Vaswani"], "The paper presents the Transformer.", none⟩ }
     ⟨"Attention Is All You Need", ["Ashish Vaswani"], "The paper presents the Transformer.", none⟩ rfl,
   C9_amended.2.2.1 P0.initialState rfl,
   C9_amended.2.2.2 { P0.initialState with summaryResult := some ⟨"A survey of attention.", [], "academic", "detailed", [⟨"p1", "Methods"⟩], [], 12⟩ }
     ⟨"A survey of attention.", [], "academic", "detailed", [⟨"p1", "Methods"⟩], [], 12⟩ rfl⟩
